import Mathlib

/-
Verification of the interview-preparation assistant:
the AI-response contract layer (geminiService) and the mock-interview
session state machine (MockInterviewModal reducer and processing pipeline).

The TypeScript source is shallowly embedded: JSON.parse is an external
library call and is modelled as an abstract parsing oracle
`jsonParse : String -> Option Json`; the network transport of each gateway
operation is modelled as an `Except String String` result (the response
text, or the message of the thrown transport error).
-/

/-- JSON values as produced by a successful JSON.parse call. -/
inductive Json where
  | null : Json
  | bool (b : Bool) : Json
  | num (n : Int) : Json
  | str (s : String) : Json
  | arr (elems : List Json) : Json
  | obj (fields : List (String × Json)) : Json

/-- Lookup of a field inside a parsed JSON object literal. -/
def lookupField : List (String × Json) → String → Option Json
  | [], _ => none
  | (k, v) :: rest, key => if k = key then some v else lookupField rest key

/-- The value of `parsedData[key]` in JavaScript: `some v` when the key is
present on an object (possibly with value null), `none` when it is
undefined (absent, or indexed on a non-object such as an array). -/
def jsonLookup : Json → String → Option Json
  | Json.obj fields, key => lookupField fields key
  | _, _ => none

/-- The JavaScript String.prototype.trim library call, modelled over the
character list: strips whitespace from both ends. -/
def jsTrim (s : String) : String :=
  String.mk (((s.data.dropWhile Char.isWhitespace).reverse.dropWhile
    Char.isWhitespace).reverse)

/-- JavaScript emptiness (falsiness) of a string. -/
def jsIsEmpty (s : String) : Bool :=
  s.data.isEmpty

/-- The JavaScript String.prototype.startsWith library call for the
one-character prefixes used by the source. -/
def jsStartsWithChar (s : String) (c : Char) : Bool :=
  match s.data with
  | [] => false
  | d :: _ => d == c

/-- The sanitized user-facing message thrown by parseAndValidateJSON. -/
def formatErrorMessage : String :=
  "The AI returned a response in an unexpected format. Please try again."

/-- The for-loop over schemaKeys in parseAndValidateJSON: true when some
required key is undefined on the parsed data, with followUpQuestion
exempted from the check. -/
def missingRequiredKey (parsedData : Json) : List String → Bool
  | [] => false
  | key :: rest =>
    if (jsonLookup parsedData key).isNone && key != "followUpQuestion" then true
    else missingRequiredKey parsedData rest

/-- Embedding of parseAndValidateJSON from the service module: trims the
response text, rejects empty text and text not starting with an object or
array delimiter, parses it with the JSON.parse oracle, and rejects parsed
data on which a required key other than followUpQuestion is undefined.
Every failure is surfaced as the single sanitized format-error message
(the catch block swallows the internal messages). -/
def parseAndValidateJSON (jsonParse : String → Option Json)
    (responseText : String) (schemaKeys : List String) : Except String Json :=
  let jsonText := jsTrim responseText
  if jsIsEmpty jsonText ||
      (!jsStartsWithChar jsonText '\x7b' && !jsStartsWithChar jsonText '[') then
    Except.error formatErrorMessage
  else
    match jsonParse jsonText with
    | none => Except.error formatErrorMessage
    | some parsedData =>
      if missingRequiredKey parsedData schemaKeys then Except.error formatErrorMessage
      else Except.ok parsedData

/-- The user-facing GenerationError message of generateInterviewQuestions. -/
def generationErrorMessage : String :=
  "Could not generate interview questions. This could be due to a network issue or a content safety filter on your input. Please check your job description for sensitive terms or try again later."

/-- The schema keys generateInterviewQuestions passes to parseAndValidateJSON. -/
def interviewPrepKeys : List String := ["questions", "companyName", "approachGuide"]

/-- Embedding of generateInterviewQuestions: the transport call either
throws (error) or yields the response text, which is passed through
parseAndValidateJSON with the interview-prep keys; any failure is caught
and rethrown as the GenerationError message. The parsed value is returned
as-is (the source casts parsedData to InterviewPrepResult). -/
def generateInterviewQuestions (jsonParse : String → Option Json)
    (transport : Except String String) : Except String Json :=
  match transport with
  | Except.error _ => Except.error generationErrorMessage
  | Except.ok text =>
    match parseAndValidateJSON jsonParse text interviewPrepKeys with
    | Except.ok v => Except.ok v
    | Except.error _ => Except.error generationErrorMessage

/-- Result type of validateJobInput; status is the string the AI returned. -/
structure ValidationResult where
  status : String
  reason : String
deriving DecidableEq

/-- The fail-open fallback value returned by validateJobInput in its catch. -/
def validationFallback : ValidationResult :=
  { status := "valid", reason := "Validation check failed, proceeding anyway." }

/-- Embedding of validateJobInput: on transport failure, JSON.parse failure,
a status outside the three allowed strings, or a non-string reason, the
catch block returns the fail-open fallback; otherwise the parsed verdict
is returned. -/
def validateJobInput (jsonParse : String → Option Json)
    (transport : Except String String) : ValidationResult :=
  match transport with
  | Except.error _ => validationFallback
  | Except.ok text =>
    match jsonParse (jsTrim text) with
    | none => validationFallback
    | some parsed =>
      match jsonLookup parsed "status", jsonLookup parsed "reason" with
      | some (Json.str s), some (Json.str r) =>
        if s = "valid" || s = "improvable" || s = "invalid" then
          { status := s, reason := r }
        else validationFallback
      | _, _ => validationFallback

/-- Interview question categories from the shared types module. -/
inductive QuestionCategory where
  | HR
  | Technical
  | Behavioral
deriving DecidableEq

/-- An interview question as generated for the session. -/
structure InterviewQuestion where
  question : String
  category : QuestionCategory
  suggestedAnswer : String

/-- Structured feedback returned by generateAnswerFeedback. -/
structure StructuredFeedback where
  clarity : Int
  «structure» : Int
  relevance : Int
  overallImpression : String
  improvementPoints : List String
  followUpQuestion : Option String

/-- Per-turn answer result; feedback is structured feedback or a plain
fallback message string, userAudioUrl the object URL of the recorded clip. -/
structure AnswerFeedback where
  userAnswer : String
  feedback : StructuredFeedback ⊕ String
  userAudioUrl : Option String

/-- The step field of the mock-interview session. -/
inductive InterviewStep where
  | question
  | feedback
  | summary
  | permission_denied
  | error
deriving DecidableEq

/-- The mock-interview session state; the answers Map is modelled as an
association list with Map.set replacing the entry at an existing key, and
the MediaStream handle as an abstract numeric identifier. -/
structure MockInterviewState where
  step : InterviewStep
  currentIndex : Nat
  isRecording : Bool
  isProcessing : Bool
  answers : List (Nat × AnswerFeedback)
  audioStream : Option Nat
  countdown : Option Int
  recordingTime : Nat
  error : Option String
  isQuestionAudioPlaying : Bool

/-- The actions of the mock-interview reducer. -/
inductive MockInterviewAction where
  | startInterview
  | closeInterview
  | requestPermissionSuccess (stream : Nat)
  | requestPermissionFailure
  | startCountdown
  | decrementCountdown
  | startRecording
  | stopRecording
  | startProcessing
  | finishProcessing (answer : AnswerFeedback)
  | processingError (error : String)
  | nextQuestion (questions : List InterviewQuestion)
  | retryQuestion
  | tickTimer
  | playQuestionAudio
  | finishQuestionAudio

/-- JavaScript Map.get on the answers association list. -/
def mapGet {α : Type} (m : List (Nat × α)) (k : Nat) : Option α :=
  match m with
  | [] => none
  | (j, v) :: rest => if j = k then some v else mapGet rest k

/-- JavaScript Map.set on the answers association list: replaces the entry
at an existing key, otherwise appends a new entry. -/
def mapSet {α : Type} (m : List (Nat × α)) (k : Nat) (v : α) : List (Nat × α) :=
  match m with
  | [] => [(k, v)]
  | (j, w) :: rest => if j = k then (k, v) :: rest else (j, w) :: mapSet rest k v

/-- The initial session state of the modal. -/
def initialState : MockInterviewState :=
  { step := InterviewStep.question
    currentIndex := 0
    isRecording := false
    isProcessing := false
    answers := []
    audioStream := none
    countdown := none
    recordingTime := 0
    error := none
    isQuestionAudioPlaying := false }

/-- Embedding of mockInterviewReducer, the pure transition function of the
session state machine. Stopping the MediaStream tracks is an external side
effect; the reducer state change (dropping the handle) is kept. -/
def mockInterviewReducer (state : MockInterviewState)
    (action : MockInterviewAction) : MockInterviewState :=
  match action with
  | MockInterviewAction.startInterview => initialState
  | MockInterviewAction.closeInterview => { initialState with audioStream := none }
  | MockInterviewAction.requestPermissionSuccess stream =>
      { state with audioStream := some stream }
  | MockInterviewAction.requestPermissionFailure =>
      { state with step := InterviewStep.permission_denied }
  | MockInterviewAction.startCountdown => { state with countdown := some 3 }
  | MockInterviewAction.decrementCountdown =>
      { state with countdown :=
          (match state.countdown with
           | some c => some (c - 1)
           | none => none) }
  | MockInterviewAction.startRecording =>
      { state with isRecording := true, countdown := none, recordingTime := 0 }
  | MockInterviewAction.stopRecording =>
      { state with isRecording := false, audioStream := none }
  | MockInterviewAction.startProcessing => { state with isProcessing := true }
  | MockInterviewAction.finishProcessing answer =>
      { state with
          isProcessing := false, step := InterviewStep.feedback,
          answers := mapSet state.answers state.currentIndex answer,
          isQuestionAudioPlaying := false }
  | MockInterviewAction.processingError e =>
      { state with isProcessing := false, step := InterviewStep.error, error := some e }
  | MockInterviewAction.nextQuestion questions =>
      if state.currentIndex < questions.length - 1 then
        { state with
            step := InterviewStep.question,
            currentIndex := state.currentIndex + 1, isQuestionAudioPlaying := false }
      else
        { state with step := InterviewStep.summary, isQuestionAudioPlaying := false }
  | MockInterviewAction.retryQuestion =>
      { state with step := InterviewStep.question, isQuestionAudioPlaying := false }
  | MockInterviewAction.tickTimer =>
      { state with recordingTime := state.recordingTime + 1 }
  | MockInterviewAction.playQuestionAudio =>
      { state with isQuestionAudioPlaying := true }
  | MockInterviewAction.finishQuestionAudio =>
      { state with isQuestionAudioPlaying := false }

/-- The sentinel userAnswer for a below-threshold recording. -/
def noAudioSentinel : String := "(No audio was detected)"

/-- The instructive message attached to a below-threshold recording. -/
def noAudioMessage : String :=
  "It seems no audio was captured. Please ensure your microphone is working correctly and try recording your answer again."

/-- The sentinel userAnswer for a blank transcript. -/
def couldNotUnderstandSentinel : String := "(Could not understand audio)"

/-- The instructive message attached to a blank-transcript turn. -/
def couldNotUnderstandMessage : String :=
  "We had trouble understanding the audio. Could you please try speaking more clearly and try again?"

/-- The catch block of handleStopRecording dispatches err.message, falling
back to this fixed text when the message is empty (JavaScript or-else). -/
def processingErrorMessage (e : String) : String :=
  if e = "" then "An unknown error occurred while processing your answer." else e

/-- Outcome of the stop-recording handler: the object URLs it revokes
(computed before the new URL is stored) and the actions it dispatches, in
dispatch order. -/
structure ProcessOutcome where
  revokedUrls : List String
  actions : List MockInterviewAction

/-- The revocation step of the onstop callback: the previous object URL
stored for the current question, if any; JavaScript truthiness skips an
empty URL string. -/
def revokedFor (answers : List (Nat × AnswerFeedback)) (currentIndex : Nat) : List String :=
  match mapGet answers currentIndex with
  | some existing =>
    (match existing.userAudioUrl with
     | some u => if u = "" then [] else [u]
     | none => [])
  | none => []

/-- Embedding of handleStopRecording together with its onstop callback:
dispatches STOP_RECORDING and START_PROCESSING, revokes the previous
object URL stored for the current question, then inspects the recorded
blob size; below 200 bytes it finishes with the no-audio sentinel answer,
otherwise it transcribes (an abstract Except result), finishes with the
could-not-understand sentinel on a blank transcript, requests feedback on
a non-blank one, and maps any thrown failure to PROCESSING_ERROR with its
message. The fresh object URL of the clip is created before the size
check and stored in every finished answer. -/
def handleStopRecording (answers : List (Nat × AnswerFeedback))
    (currentIndex : Nat) (blobSize : Nat) (newUrl : String)
    (transcribeResult : Except String String)
    (feedbackResult : String → Except String StructuredFeedback) : ProcessOutcome :=
  let revoked := revokedFor answers currentIndex
  if blobSize < 200 then
    { revokedUrls := revoked
      actions := [MockInterviewAction.stopRecording,
        MockInterviewAction.startProcessing,
        MockInterviewAction.finishProcessing
          { userAnswer := noAudioSentinel
            feedback := Sum.inr noAudioMessage
            userAudioUrl := some newUrl }] }
  else
    match transcribeResult with
    | Except.error e =>
      { revokedUrls := revoked
        actions := [MockInterviewAction.stopRecording,
          MockInterviewAction.startProcessing,
          MockInterviewAction.processingError (processingErrorMessage e)] }
    | Except.ok transcribedText =>
      if jsIsEmpty (jsTrim transcribedText) then
        { revokedUrls := revoked
          actions := [MockInterviewAction.stopRecording,
            MockInterviewAction.startProcessing,
            MockInterviewAction.finishProcessing
              { userAnswer := couldNotUnderstandSentinel
                feedback := Sum.inr couldNotUnderstandMessage
                userAudioUrl := some newUrl }] }
      else
        match feedbackResult transcribedText with
        | Except.error e =>
          { revokedUrls := revoked
            actions := [MockInterviewAction.stopRecording,
              MockInterviewAction.startProcessing,
              MockInterviewAction.processingError (processingErrorMessage e)] }
        | Except.ok fb =>
          { revokedUrls := revoked
            actions := [MockInterviewAction.stopRecording,
              MockInterviewAction.startProcessing,
              MockInterviewAction.finishProcessing
                { userAnswer := transcribedText
                  feedback := Sum.inl fb
                  userAudioUrl := some newUrl }] }

/-- Folds a dispatched action sequence through the reducer. -/
def applyActions (s : MockInterviewState)
    (acts : List MockInterviewAction) : MockInterviewState :=
  acts.foldl mockInterviewReducer s

/-- Which action the surrounding component can dispatch in which state,
read off the modal source: START_COUNTDOWN comes from the Record button,
which is rendered only in the question step with no countdown, not
recording, not processing, and is disabled while the question audio plays;
DECREMENT_COUNTDOWN from the countdown effect (countdown non-null and
non-zero); STOP_RECORDING from the Stop button of the recording view;
NEXT_QUESTION and RETRY_QUESTION from the feedback-step footer buttons;
TICK_TIMER from the interval that runs while recording. The remaining
actions come from asynchronous callbacks and effects and are allowed in
any state. -/
inductive CanFire : MockInterviewState → MockInterviewAction → Prop where
  | startInterview (s : MockInterviewState) :
      CanFire s MockInterviewAction.startInterview
  | closeInterview (s : MockInterviewState) :
      CanFire s MockInterviewAction.closeInterview
  | requestPermissionSuccess (s : MockInterviewState) (stream : Nat) :
      CanFire s (MockInterviewAction.requestPermissionSuccess stream)
  | requestPermissionFailure (s : MockInterviewState) :
      CanFire s MockInterviewAction.requestPermissionFailure
  | startCountdown (s : MockInterviewState) :
      s.step = InterviewStep.question → s.countdown = none →
      s.isRecording = false → s.isProcessing = false →
      s.isQuestionAudioPlaying = false →
      CanFire s MockInterviewAction.startCountdown
  | decrementCountdown (s : MockInterviewState) (c : Int) :
      s.countdown = some c → c ≠ 0 →
      CanFire s MockInterviewAction.decrementCountdown
  | startRecording (s : MockInterviewState) :
      CanFire s MockInterviewAction.startRecording
  | stopRecording (s : MockInterviewState) :
      s.isRecording = true → CanFire s MockInterviewAction.stopRecording
  | startProcessing (s : MockInterviewState) :
      CanFire s MockInterviewAction.startProcessing
  | finishProcessing (s : MockInterviewState) (a : AnswerFeedback) :
      CanFire s (MockInterviewAction.finishProcessing a)
  | processingError (s : MockInterviewState) (e : String) :
      CanFire s (MockInterviewAction.processingError e)
  | nextQuestion (s : MockInterviewState) (qs : List InterviewQuestion) :
      s.step = InterviewStep.feedback →
      CanFire s (MockInterviewAction.nextQuestion qs)
  | retryQuestion (s : MockInterviewState) :
      s.step = InterviewStep.feedback →
      CanFire s MockInterviewAction.retryQuestion
  | tickTimer (s : MockInterviewState) :
      s.isRecording = true → CanFire s MockInterviewAction.tickTimer
  | playQuestionAudio (s : MockInterviewState) :
      CanFire s MockInterviewAction.playQuestionAudio
  | finishQuestionAudio (s : MockInterviewState) :
      CanFire s MockInterviewAction.finishQuestionAudio

/-- States of the session reachable from the initial state through
dispatchable transitions. -/
inductive Reachable : MockInterviewState → Prop where
  | init : Reachable initialState
  | next {s : MockInterviewState} {a : MockInterviewAction} :
      Reachable s → CanFire s a → Reachable (mockInterviewReducer s a)

/-- A two-question list used to exercise the transition theorems. -/
def sampleQuestions : List InterviewQuestion :=
  [{ question := "Tell me about yourself.", category := QuestionCategory.HR,
     suggestedAnswer := "I am a developer." },
   { question := "Explain event loops.", category := QuestionCategory.Technical,
     suggestedAnswer := "An event loop schedules callbacks." }]

/-- A session state sitting at the feedback step of the last question. -/
def sampleFeedbackState : MockInterviewState :=
  { initialState with step := InterviewStep.feedback, currentIndex := 1 }

/-- A parse oracle recognising a single array literal. -/
def sampleOracle : String → Option Json :=
  fun s => if s = "[0]" then some (Json.arr [Json.num 0]) else none

/-- A parsed gateway reply in which companyName is null while approachGuide
is a non-null string. -/
def samplePrepJson : Json :=
  Json.obj [("questions", Json.arr []), ("companyName", Json.null),
    ("approachGuide", Json.str "Guide")]

/-- The raw response text carrying samplePrepJson. -/
def samplePrepText : String :=
  "\x7b\"questions\":[],\"companyName\":null,\"approachGuide\":\"Guide\"\x7d"

/-- A parse oracle mapping samplePrepText to samplePrepJson. -/
def samplePrepOracle : String → Option Json :=
  fun s => if s = samplePrepText then some samplePrepJson else none

/-- A previously stored answer holding an object URL. -/
def sampleAnswer : AnswerFeedback :=
  { userAnswer := "My answer", feedback := Sum.inr "Good", userAudioUrl := some "blob:old" }

theorem handleStopRecording_revokedUrls (answers : List (Nat × AnswerFeedback))
    (currentIndex blobSize : Nat) (newUrl : String)
    (transcribeResult : Except String String)
    (feedbackResult : String → Except String StructuredFeedback) :
    (handleStopRecording answers currentIndex blobSize newUrl transcribeResult
      feedbackResult).revokedUrls = revokedFor answers currentIndex := by
  unfold handleStopRecording
  by_cases h1 : blobSize < 200
  · simp [h1]
  · rcases transcribeResult with e | t
    · simp [h1]
    · by_cases h2 : jsIsEmpty (jsTrim t)
      · simp [h1, h2]
      · rcases hf : feedbackResult t with e | fb
        · simp [h1, h2, hf]
        · simp [h1, h2, hf]

/-- C6: in the feedback step with a question list of length N, the
NEXT_QUESTION action moves to the question step at currentIndex + 1 when
currentIndex < N - 1, and to the summary step with currentIndex unchanged
when currentIndex = N - 1. -/
theorem nextQuestion_advances_or_summary (s : MockInterviewState)
    (questions : List InterviewQuestion)
    (_hstep : s.step = InterviewStep.feedback) :
    (s.currentIndex < questions.length - 1 →
      (mockInterviewReducer s (MockInterviewAction.nextQuestion questions)).step
          = InterviewStep.question ∧
      (mockInterviewReducer s (MockInterviewAction.nextQuestion questions)).currentIndex
          = s.currentIndex + 1) ∧
    (s.currentIndex = questions.length - 1 →
      (mockInterviewReducer s (MockInterviewAction.nextQuestion questions)).step
          = InterviewStep.summary ∧
      (mockInterviewReducer s (MockInterviewAction.nextQuestion questions)).currentIndex
          = s.currentIndex) := by
  constructor
  · intro h
    simp [mockInterviewReducer, h]
  · intro h
    have hnot : ¬s.currentIndex < questions.length - 1 := by
      rw [h]
      exact lt_irrefl _
    simp [mockInterviewReducer, hnot]

theorem nextQuestion_advances_or_summary_witness :
    (mockInterviewReducer sampleFeedbackState
      (MockInterviewAction.nextQuestion sampleQuestions)).step = InterviewStep.summary ∧
    (mockInterviewReducer sampleFeedbackState
      (MockInterviewAction.nextQuestion sampleQuestions)).currentIndex = 1 :=
  (nextQuestion_advances_or_summary sampleFeedbackState sampleQuestions rfl).2 rfl

/-- C7: from the feedback step, RETRY_QUESTION returns to the question step
at the same currentIndex, and on the next stop-recording processing the
object URL previously stored for that index is revoked before the new
answer (carrying the fresh URL) replaces it. -/
theorem retryQuestion_same_index_and_release (s : MockInterviewState)
    (_hstep : s.step = InterviewStep.feedback) :
    (mockInterviewReducer s MockInterviewAction.retryQuestion).step
        = InterviewStep.question ∧
    (mockInterviewReducer s MockInterviewAction.retryQuestion).currentIndex
        = s.currentIndex ∧
    (∀ (answers : List (Nat × AnswerFeedback)) (i blobSize : Nat) (newUrl : String)
       (transcribeResult : Except String String)
       (feedbackResult : String → Except String StructuredFeedback)
       (a : AnswerFeedback) (u : String),
       mapGet answers i = some a → a.userAudioUrl = some u → u ≠ "" →
       (handleStopRecording answers i blobSize newUrl transcribeResult
         feedbackResult).revokedUrls = [u]) := by
  refine ⟨by simp [mockInterviewReducer], by simp [mockInterviewReducer], ?_⟩
  intro answers i blobSize newUrl transcribeResult feedbackResult a u hget hurl hne
  rw [handleStopRecording_revokedUrls]
  simp [revokedFor, hget, hurl, hne]

theorem retryQuestion_same_index_and_release_witness :
    (mockInterviewReducer sampleFeedbackState MockInterviewAction.retryQuestion).step
        = InterviewStep.question ∧
    (handleStopRecording [(1, sampleAnswer)] 1 500 "blob:new" (Except.ok "Hi")
      (fun _ => Except.error "down")).revokedUrls = ["blob:old"] := by
  have h := retryQuestion_same_index_and_release sampleFeedbackState rfl
  exact ⟨h.1, h.2.2 [(1, sampleAnswer)] 1 500 "blob:new" (Except.ok "Hi")
    (fun _ => Except.error "down") sampleAnswer "blob:old" rfl rfl (by decide)⟩

/-- C4: a recorded clip below the 200-byte threshold produces the sentinel
no-audio AnswerFeedback with the instructive message, and the dispatched
actions leave the session at the feedback step, not the error step. -/
theorem belowThreshold_finishes_with_sentinel (s : MockInterviewState)
    (answers : List (Nat × AnswerFeedback)) (i blobSize : Nat) (newUrl : String)
    (transcribeResult : Except String String)
    (feedbackResult : String → Except String StructuredFeedback)
    (hsize : blobSize < 200) :
    (handleStopRecording answers i blobSize newUrl transcribeResult
        feedbackResult).actions =
      [MockInterviewAction.stopRecording, MockInterviewAction.startProcessing,
       MockInterviewAction.finishProcessing
         { userAnswer := "(No audio was detected)"
           feedback := Sum.inr noAudioMessage
           userAudioUrl := some newUrl }] ∧
    (applyActions s (handleStopRecording answers i blobSize newUrl transcribeResult
        feedbackResult).actions).step = InterviewStep.feedback ∧
    (applyActions s (handleStopRecording answers i blobSize newUrl transcribeResult
        feedbackResult).actions).step ≠ InterviewStep.error := by
  have hact : (handleStopRecording answers i blobSize newUrl transcribeResult
      feedbackResult).actions =
      [MockInterviewAction.stopRecording, MockInterviewAction.startProcessing,
       MockInterviewAction.finishProcessing
         { userAnswer := noAudioSentinel
           feedback := Sum.inr noAudioMessage
           userAudioUrl := some newUrl }] := by
    simp [handleStopRecording, hsize]
  refine ⟨hact, ?_, ?_⟩ <;> rw [hact] <;>
    simp [applyActions, mockInterviewReducer, noAudioSentinel]

theorem belowThreshold_finishes_with_sentinel_witness :
    (applyActions initialState (handleStopRecording [] 0 50 "blob:clip"
        (Except.ok "") (fun _ => Except.error "down")).actions).step
      = InterviewStep.feedback :=
  (belowThreshold_finishes_with_sentinel initialState [] 0 50 "blob:clip"
    (Except.ok "") (fun _ => Except.error "down") (by decide)).2.1

/-- C5: a transcript that is empty after trimming produces the sentinel
could-not-understand AnswerFeedback, leaves the session at the feedback
step rather than the error step, and the outcome does not depend on the
feedback-generation call at all. -/
theorem blankTranscript_finishes_with_sentinel (s : MockInterviewState)
    (answers : List (Nat × AnswerFeedback)) (i blobSize : Nat) (newUrl : String)
    (t : String)
    (feedbackResult feedbackResultB : String → Except String StructuredFeedback)
    (hsize : ¬blobSize < 200) (ht : jsIsEmpty (jsTrim t) = true) :
    (handleStopRecording answers i blobSize newUrl (Except.ok t)
        feedbackResult).actions =
      [MockInterviewAction.stopRecording, MockInterviewAction.startProcessing,
       MockInterviewAction.finishProcessing
         { userAnswer := "(Could not understand audio)"
           feedback := Sum.inr couldNotUnderstandMessage
           userAudioUrl := some newUrl }] ∧
    (applyActions s (handleStopRecording answers i blobSize newUrl (Except.ok t)
        feedbackResult).actions).step = InterviewStep.feedback ∧
    (applyActions s (handleStopRecording answers i blobSize newUrl (Except.ok t)
        feedbackResult).actions).step ≠ InterviewStep.error ∧
    handleStopRecording answers i blobSize newUrl (Except.ok t) feedbackResult =
      handleStopRecording answers i blobSize newUrl (Except.ok t) feedbackResultB := by
  have hact : (handleStopRecording answers i blobSize newUrl (Except.ok t)
      feedbackResult).actions =
      [MockInterviewAction.stopRecording, MockInterviewAction.startProcessing,
       MockInterviewAction.finishProcessing
         { userAnswer := couldNotUnderstandSentinel
           feedback := Sum.inr couldNotUnderstandMessage
           userAudioUrl := some newUrl }] := by
    simp [handleStopRecording, hsize, ht]
  refine ⟨hact, ?_, ?_, ?_⟩
  · rw [hact]; simp [applyActions, mockInterviewReducer, couldNotUnderstandSentinel]
  · rw [hact]; simp [applyActions, mockInterviewReducer, couldNotUnderstandSentinel]
  · simp [handleStopRecording, hsize, ht]

theorem blankTranscript_finishes_with_sentinel_witness :
    (applyActions initialState (handleStopRecording [] 0 1000 "blob:clip"
        (Except.ok "   ") (fun _ => Except.error "down")).actions).step
      = InterviewStep.feedback :=
  (blankTranscript_finishes_with_sentinel initialState [] 0 1000 "blob:clip" "   "
    (fun _ => Except.error "down") (fun _ => Except.error "other")
    (by decide) (by decide)).2.1

/-- C10: the sentinel answer produced for a below-threshold recording still
carries the object URL created for the clip before the size check; its
userAudioUrl is never null. -/
theorem belowThreshold_answer_has_audioUrl
    (answers : List (Nat × AnswerFeedback)) (i blobSize : Nat) (newUrl : String)
    (transcribeResult : Except String String)
    (feedbackResult : String → Except String StructuredFeedback)
    (hsize : blobSize < 200) :
    ∃ a, (handleStopRecording answers i blobSize newUrl transcribeResult
        feedbackResult).actions.getLast? =
          some (MockInterviewAction.finishProcessing a) ∧
      a.userAnswer = "(No audio was detected)" ∧
      a.userAudioUrl = some newUrl ∧ a.userAudioUrl ≠ none := by
  refine ⟨{ userAnswer := noAudioSentinel
            feedback := Sum.inr noAudioMessage
            userAudioUrl := some newUrl }, ?_, rfl, rfl, by simp⟩
  simp [handleStopRecording, hsize]

theorem belowThreshold_answer_has_audioUrl_witness :
    ∃ a, (handleStopRecording [] 0 50 "blob:clip" (Except.ok "")
        (fun _ => Except.error "down")).actions.getLast? =
          some (MockInterviewAction.finishProcessing a) ∧
      a.userAnswer = "(No audio was detected)" ∧
      a.userAudioUrl = some "blob:clip" ∧ a.userAudioUrl ≠ none :=
  belowThreshold_answer_has_audioUrl [] 0 50 "blob:clip" (Except.ok "")
    (fun _ => Except.error "down") (by decide)

/-- C9: processing always clears isProcessing, and a failure thrown by the
transcription call or by the feedback-generation call drives the session
to the error step with the failure message retained in the error field. -/
theorem processingFailure_reaches_error_step (s : MockInterviewState)
    (answers : List (Nat × AnswerFeedback)) (i blobSize : Nat) (newUrl : String)
    (transcribeResult : Except String String)
    (feedbackResult : String → Except String StructuredFeedback) :
    ((applyActions s (handleStopRecording answers i blobSize newUrl transcribeResult
        feedbackResult).actions).isProcessing = false) ∧
    (∀ e, ¬blobSize < 200 → transcribeResult = Except.error e → e ≠ "" →
      (applyActions s (handleStopRecording answers i blobSize newUrl transcribeResult
          feedbackResult).actions).step = InterviewStep.error ∧
      (applyActions s (handleStopRecording answers i blobSize newUrl transcribeResult
          feedbackResult).actions).error = some e) ∧
    (∀ t e, ¬blobSize < 200 → transcribeResult = Except.ok t →
      jsIsEmpty (jsTrim t) = false → feedbackResult t = Except.error e → e ≠ "" →
      (applyActions s (handleStopRecording answers i blobSize newUrl transcribeResult
          feedbackResult).actions).step = InterviewStep.error ∧
      (applyActions s (handleStopRecording answers i blobSize newUrl transcribeResult
          feedbackResult).actions).error = some e) := by
  refine ⟨?_, ?_, ?_⟩
  · by_cases h1 : blobSize < 200
    · simp [handleStopRecording, h1, applyActions, mockInterviewReducer]
    · rcases transcribeResult with e | t
      · simp [handleStopRecording, h1, applyActions, mockInterviewReducer]
      · by_cases h2 : jsIsEmpty (jsTrim t)
        · simp [handleStopRecording, h1, h2, applyActions, mockInterviewReducer]
        · rcases hf : feedbackResult t with e | fb
          · simp [handleStopRecording, h1, h2, hf, applyActions, mockInterviewReducer]
          · simp [handleStopRecording, h1, h2, hf, applyActions, mockInterviewReducer]
  · intro e h1 htr hne
    subst htr
    simp [handleStopRecording, h1, applyActions, mockInterviewReducer,
      processingErrorMessage, hne]
  · intro t e h1 htr h2 hf hne
    subst htr
    simp [handleStopRecording, h1, h2, hf, applyActions, mockInterviewReducer,
      processingErrorMessage, hne]

theorem processingFailure_reaches_error_step_witness :
    (applyActions initialState (handleStopRecording [] 0 1000 "blob:clip"
        (Except.error "Failed to transcribe your audio.")
        (fun _ => Except.error "down")).actions).step = InterviewStep.error ∧
    (applyActions initialState (handleStopRecording [] 0 1000 "blob:clip"
        (Except.error "Failed to transcribe your audio.")
        (fun _ => Except.error "down")).actions).error
      = some "Failed to transcribe your audio." :=
  (processingFailure_reaches_error_step initialState [] 0 1000 "blob:clip"
    (Except.error "Failed to transcribe your audio.") (fun _ => Except.error "down")).2.1
    "Failed to transcribe your audio." (by decide) rfl (by decide)

/-- C8: in every session state reachable from the initial state through
dispatchable transitions, isRecording and a non-null countdown are never
simultaneously true. -/
theorem recording_excludes_countdown (s : MockInterviewState)
    (hs : Reachable s) :
    ¬(s.isRecording = true ∧ s.countdown ≠ none) := by
  induction hs with
  | init => simp [initialState]
  | @next s a hr hc ih =>
    cases hc with
    | startInterview => simp [mockInterviewReducer, initialState]
    | closeInterview => simp [mockInterviewReducer, initialState]
    | requestPermissionSuccess stream =>
      simpa [mockInterviewReducer] using ih
    | requestPermissionFailure =>
      simpa [mockInterviewReducer] using ih
    | startCountdown h1 h2 h3 h4 h5 =>
      simp [mockInterviewReducer, h3]
    | decrementCountdown c hcd hcz =>
      cases hb : s.isRecording with
      | false => simp [mockInterviewReducer, hb]
      | true => exact absurd ⟨hb, by simp [hcd]⟩ ih
    | startRecording => simp [mockInterviewReducer]
    | stopRecording h => simp [mockInterviewReducer]
    | startProcessing => simpa [mockInterviewReducer] using ih
    | finishProcessing a => simpa [mockInterviewReducer] using ih
    | processingError e => simpa [mockInterviewReducer] using ih
    | nextQuestion qs h =>
      by_cases hlt : s.currentIndex < qs.length - 1
      · simpa [mockInterviewReducer, hlt] using ih
      · simpa [mockInterviewReducer, hlt] using ih
    | retryQuestion h => simpa [mockInterviewReducer] using ih
    | tickTimer h => simpa [mockInterviewReducer] using ih
    | playQuestionAudio => simpa [mockInterviewReducer] using ih
    | finishQuestionAudio => simpa [mockInterviewReducer] using ih

theorem recording_excludes_countdown_witness :
    ¬(initialState.isRecording = true ∧ initialState.countdown ≠ none) :=
  recording_excludes_countdown initialState Reachable.init

theorem missingRequiredKey_iff (v : Json) (keys : List String) :
    missingRequiredKey v keys = true ↔
      ∃ k, k ∈ keys ∧ jsonLookup v k = none ∧ k ≠ "followUpQuestion" := by
  induction keys with
  | nil => simp [missingRequiredKey]
  | cons key rest ih =>
    by_cases hk : ((jsonLookup v key).isNone && key != "followUpQuestion") = true
    · have hk2 := hk
      rw [Bool.and_eq_true, Option.isNone_iff_eq_none, bne_iff_ne] at hk2
      simp only [missingRequiredKey, if_pos hk]
      constructor
      · intro _
        exact ⟨key, List.mem_cons_self _ _, hk2.1, hk2.2⟩
      · intro _
        trivial
    · simp only [missingRequiredKey, if_neg hk]
      rw [Bool.and_eq_true, Option.isNone_iff_eq_none, bne_iff_ne] at hk
      rw [ih]
      constructor
      · rintro ⟨k, hmem, hl, hne⟩
        exact ⟨k, List.mem_cons_of_mem _ hmem, hl, hne⟩
      · rintro ⟨k, hmem, hl, hne⟩
        rcases List.mem_cons.mp hmem with hkey | hmem2
        · exact absurd ⟨hkey ▸ hl, hkey ▸ hne⟩ hk
        · exact ⟨k, hmem2, hl, hne⟩

theorem missingRequiredKey_eq_false (v : Json) (keys : List String)
    (hkeys : ∀ k, k ∈ keys → k ≠ "followUpQuestion" → jsonLookup v k ≠ none) :
    missingRequiredKey v keys = false := by
  cases h : missingRequiredKey v keys with
  | false => rfl
  | true =>
    rcases (missingRequiredKey_iff v keys).mp h with ⟨k, hk, hl, hne⟩
    exact absurd hl (hkeys k hk hne)

/-- C1: parseAndValidateJSON fails with the FormatError exactly when the
trimmed input is empty, or it starts with neither an object nor an array
delimiter, or the JSON.parse oracle fails, or some required key other
than the exempt followUpQuestion is undefined on the parsed value; in
every other case it returns the parsed value. -/
theorem parseAndValidateJSON_formatError_iff
    (jsonParse : String → Option Json) (text : String) (keys : List String) :
    ((∃ e, parseAndValidateJSON jsonParse text keys = Except.error e) ↔
      (jsIsEmpty (jsTrim text) = true ∨
       (jsStartsWithChar (jsTrim text) '\x7b' = false ∧
        jsStartsWithChar (jsTrim text) '[' = false) ∨
       jsonParse (jsTrim text) = none ∨
       (∃ v, jsonParse (jsTrim text) = some v ∧
         ∃ k, k ∈ keys ∧ jsonLookup v k = none ∧ k ≠ "followUpQuestion"))) ∧
    (∀ v, jsonParse (jsTrim text) = some v →
      (∀ k, k ∈ keys → k ≠ "followUpQuestion" → jsonLookup v k ≠ none) →
      jsIsEmpty (jsTrim text) = false →
      (jsStartsWithChar (jsTrim text) '\x7b' = true ∨
       jsStartsWithChar (jsTrim text) '[' = true) →
      parseAndValidateJSON jsonParse text keys = Except.ok v) := by
  constructor
  · by_cases hb : (jsIsEmpty (jsTrim text) ||
        (!jsStartsWithChar (jsTrim text) '\x7b' &&
         !jsStartsWithChar (jsTrim text) '[')) = true
    · have herr : parseAndValidateJSON jsonParse text keys
          = Except.error formatErrorMessage := by
        simp only [parseAndValidateJSON]
        rw [if_pos hb]
      rw [Bool.or_eq_true, Bool.and_eq_true, Bool.not_eq_true',
        Bool.not_eq_true'] at hb
      constructor
      · intro _
        rcases hb with hb | hb
        · exact Or.inl hb
        · exact Or.inr (Or.inl hb)
      · intro _
        exact ⟨formatErrorMessage, herr⟩
    · have hbf : (jsIsEmpty (jsTrim text) ||
          (!jsStartsWithChar (jsTrim text) '\x7b' &&
           !jsStartsWithChar (jsTrim text) '[')) = false :=
        Bool.eq_false_iff.mpr hb
      have hA : jsIsEmpty (jsTrim text) = false := (Bool.or_eq_false_iff.mp hbf).1
      have hBC : jsStartsWithChar (jsTrim text) '\x7b' = true ∨
          jsStartsWithChar (jsTrim text) '[' = true := by
        cases hB : jsStartsWithChar (jsTrim text) '\x7b' with
        | true => exact Or.inl rfl
        | false =>
          cases hC : jsStartsWithChar (jsTrim text) '[' with
          | true => exact Or.inr rfl
          | false =>
            have h2 := (Bool.or_eq_false_iff.mp hbf).2
            rw [hB, hC] at h2
            simp at h2
      cases hp : jsonParse (jsTrim text) with
      | none =>
        have herr : parseAndValidateJSON jsonParse text keys
            = Except.error formatErrorMessage := by
          simp only [parseAndValidateJSON]
          rw [if_neg hb, hp]
        exact iff_of_true ⟨formatErrorMessage, herr⟩ (Or.inr (Or.inr (Or.inl rfl)))
      | some v =>
        by_cases hm : missingRequiredKey v keys = true
        · have herr : parseAndValidateJSON jsonParse text keys
              = Except.error formatErrorMessage := by
            simp only [parseAndValidateJSON]
            rw [if_neg hb, hp]
            simp [hm]
          exact iff_of_true ⟨formatErrorMessage, herr⟩
            (Or.inr (Or.inr (Or.inr ⟨v, rfl, (missingRequiredKey_iff v keys).mp hm⟩)))
        · have hok : parseAndValidateJSON jsonParse text keys = Except.ok v := by
            simp only [parseAndValidateJSON]
            rw [if_neg hb, hp]
            simp [hm]
          refine iff_of_false ?_ ?_
          · rintro ⟨e, he⟩
            rw [hok] at he
            exact Except.noConfusion he
          · rintro (h | h | h | ⟨v2, hv2, k, hk, hl, hne⟩)
            · rw [hA] at h
              exact Bool.noConfusion h
            · rcases hBC with hs | hs
              · rw [h.1] at hs
                exact Bool.noConfusion hs
              · rw [h.2] at hs
                exact Bool.noConfusion hs
            · exact Option.noConfusion h
            · have hvv : v = v2 := Option.some.inj hv2
              exact hm ((missingRequiredKey_iff v keys).mpr
                ⟨k, hk, hvv ▸ hl, hne⟩)
  · intro v hp hkeys hA hBC
    have hb : (jsIsEmpty (jsTrim text) ||
        (!jsStartsWithChar (jsTrim text) '\x7b' &&
         !jsStartsWithChar (jsTrim text) '[')) = false := by
      rw [hA]
      rcases hBC with h | h <;> rw [h] <;> simp
    have hm := missingRequiredKey_eq_false v keys hkeys
    simp only [parseAndValidateJSON]
    rw [if_neg (by simp [hb]), hp]
    simp [hm]

theorem parseAndValidateJSON_formatError_iff_witness :
    parseAndValidateJSON samplePrepOracle samplePrepText interviewPrepKeys
      = Except.ok samplePrepJson := by
  apply (parseAndValidateJSON_formatError_iff samplePrepOracle samplePrepText
    interviewPrepKeys).2
  · rfl
  · intro k hk hne
    fin_cases hk
    · simp [samplePrepJson, jsonLookup, lookupField]
    · simp [samplePrepJson, jsonLookup, lookupField]
    · simp [samplePrepJson, jsonLookup, lookupField]
  · rfl
  · exact Or.inl rfl

/-- C2 counterexample: a gateway response in which companyName is null but
approachGuide is a non-null string passes the undefined-key validation and
is returned successfully by generateInterviewQuestions, not rejected with
a GenerationError. -/
theorem generateInterviewQuestions_accepts_single_null :
    generateInterviewQuestions samplePrepOracle (Except.ok samplePrepText)
      = Except.ok samplePrepJson ∧
    jsonLookup samplePrepJson "companyName" = some Json.null ∧
    jsonLookup samplePrepJson "approachGuide" = some (Json.str "Guide") :=
  ⟨rfl, rfl, rfl⟩

/-- C2 amended: generateInterviewQuestions checks only that the keys
questions, companyName and approachGuide are defined (possibly with value
null) on the parsed response; joint nullness of companyName and
approachGuide is requested in the prompt but not enforced, so every parsed
response with the three keys defined is returned as-is. -/
theorem generateInterviewQuestions_checks_presence_only
    (jsonParse : String → Option Json) (text : String) (v : Json)
    (hp : jsonParse (jsTrim text) = some v)
    (hA : jsIsEmpty (jsTrim text) = false)
    (hBC : jsStartsWithChar (jsTrim text) '\x7b' = true ∨
      jsStartsWithChar (jsTrim text) '[' = true)
    (hq : jsonLookup v "questions" ≠ none)
    (hc : jsonLookup v "companyName" ≠ none)
    (ha : jsonLookup v "approachGuide" ≠ none) :
    generateInterviewQuestions jsonParse (Except.ok text) = Except.ok v := by
  have hkeys : ∀ k, k ∈ interviewPrepKeys → k ≠ "followUpQuestion" →
      jsonLookup v k ≠ none := by
    intro k hk _
    fin_cases hk
    · exact hq
    · exact hc
    · exact ha
  have hb : (jsIsEmpty (jsTrim text) ||
      (!jsStartsWithChar (jsTrim text) '\x7b' &&
       !jsStartsWithChar (jsTrim text) '[')) = false := by
    rw [hA]
    rcases hBC with h | h <;> rw [h] <;> simp
  have hm := missingRequiredKey_eq_false v interviewPrepKeys hkeys
  have hok : parseAndValidateJSON jsonParse text interviewPrepKeys
      = Except.ok v := by
    simp only [parseAndValidateJSON]
    rw [if_neg (by simp [hb]), hp]
    simp [hm]
  simp [generateInterviewQuestions, hok]

theorem generateInterviewQuestions_checks_presence_only_witness :
    generateInterviewQuestions samplePrepOracle (Except.ok samplePrepText)
      = Except.ok samplePrepJson := by
  apply generateInterviewQuestions_checks_presence_only samplePrepOracle
    samplePrepText samplePrepJson rfl rfl (Or.inl rfl)
  · simp [samplePrepJson, jsonLookup, lookupField]
  · simp [samplePrepJson, jsonLookup, lookupField]
  · simp [samplePrepJson, jsonLookup, lookupField]

/-- C3: validateJobInput never propagates a failure of the underlying call:
on a transport error, and on a JSON.parse failure of the response text, it
returns the fail-open fallback verdict (status valid with the fallback
reason) instead of throwing. -/
theorem validateJobInput_fail_open (jsonParse : String → Option Json) :
    (∀ e, validateJobInput jsonParse (Except.error e) = validationFallback) ∧
    (∀ text, jsonParse (jsTrim text) = none →
      validateJobInput jsonParse (Except.ok text) = validationFallback) := by
  constructor
  · intro e
    rfl
  · intro text hp
    simp [validateJobInput, hp]

theorem validateJobInput_fail_open_witness :
    validateJobInput sampleOracle (Except.error "network down") = validationFallback ∧
    validateJobInput sampleOracle (Except.ok "not json") = validationFallback :=
  ⟨(validateJobInput_fail_open sampleOracle).1 "network down",
   (validateJobInput_fail_open sampleOracle).2 "not json" rfl⟩
